import Mathlib

/-!
# Verification of the multi-track voice capture engine

Shallow embedding of `src/utils/voice_recorder.js` (the enhanced,
continuous-per-user-track variant: `SilenceGenerator`, `UserTrackManager`,
`VoiceRecorder` with stop-flag protocol).  Stateful JavaScript is embedded as
explicit state passing: each method becomes a pure function from the object
state (plus the relevant external-world state) to the new state.  Stream
callbacks (`'data'` handlers and so on) become events applied to the state.
Timestamps (`Date.now()` values, milliseconds) are embedded as `Int`; byte
counts as `Nat`.
-/

namespace VoiceRec

/-! ## Constants (voice_recorder.js: SAMPLE_RATE, CHANNELS, FRAME_SIZE, SILENCE_FRAME) -/

def SAMPLE_RATE : Nat := 48000

def CHANNELS : Nat := 2

def FRAME_SIZE : Nat := 960

/-- `SILENCE_FRAME = Buffer.alloc(FRAME_SIZE * CHANNELS * 2)`: 20 ms of 16-bit
stereo silence, 3840 bytes. -/
def silenceFrameBytes : Nat := FRAME_SIZE * CHANNELS * 2

/-- Bytes per second of the fixed PCM format: 48000 Hz x 2 channels x 2 bytes. -/
def bytesPerSecond : Nat := SAMPLE_RATE * CHANNELS * 2

/-- One codec frame period in milliseconds (20 ms at 48 kHz / 960 samples). -/
def framePeriodMs : Nat := 20

/-! ## UserTrackManager

State of one `UserTrackManager` object.  `mixerBytes` is the total number of
bytes written into `this.mixerStream` (the single input of the track's sink:
the mixer is piped into the FFmpeg encoder's stdin at construction).
`hasOpusStream` / `hasDecoder` model `currentOpusStream !== null` /
`currentDecoder !== null`.  `ffmpegSpawns` counts encoder processes spawned by
this manager: the constructor calls `_setupFFmpeg()` exactly once and no other
method spawns, so it is 1 from creation on. -/

structure UserTrackManager where
  userId : Nat
  outputDir : String
  format : String
  bitrate : String
  recordingStartTime : Int
  isPresent : Bool
  isReceivingAudio : Bool
  joinTime : Option Int
  leaveTime : Option Int
  mixerWritable : Bool
  mixerBytes : Nat
  hasOpusStream : Bool
  hasDecoder : Bool
  ffmpegRunning : Bool
  ffmpegSpawns : Nat
  silenceGenActive : Bool
  filename : String
  deriving DecidableEq

/-- The output path chosen in the constructor:
`user_<id>_continuous` with `.mp3` when the format is `mp3`, else `.wav`. -/
def trackFilename (userId : Nat) (outputDir format : String) : String :=
  let base := outputDir ++ "/user_" ++ toString userId ++ "_continuous"
  if format == "mp3" then base ++ ".mp3" else base ++ ".wav"

/-- `new UserTrackManager(userId, outputDir, format, bitrate, recordingStartTime)`:
initializes presence/audio flags to false, builds the filename, calls
`_setupFFmpeg()` (one encoder spawned, mixer piped to it) and
`_startSilenceGeneration()` (silence generator created and active). -/
def UserTrackManager.create (userId : Nat) (outputDir format bitrate : String)
    (recordingStartTime : Int) : UserTrackManager :=
  { userId := userId
    outputDir := outputDir
    format := format
    bitrate := bitrate
    recordingStartTime := recordingStartTime
    isPresent := false
    isReceivingAudio := false
    joinTime := none
    leaveTime := none
    mixerWritable := true
    mixerBytes := 0
    hasOpusStream := false
    hasDecoder := false
    ffmpegRunning := true
    ffmpegSpawns := 1
    silenceGenActive := true
    filename := trackFilename userId outputDir format }

/-- `_stopCurrentAudioStream()`: sets `isReceivingAudio = false`, destroys the
opus stream and ends the decoder (both handles become null). -/
def UserTrackManager.stopCurrentAudioStream (t : UserTrackManager) : UserTrackManager :=
  { t with isReceivingAudio := false, hasOpusStream := false, hasDecoder := false }

/-- `_insertSilence(durationMs)`:
`samplesNeeded = Math.floor((durationMs / 1000) * SAMPLE_RATE)`,
`bytesNeeded = samplesNeeded * CHANNELS * 2`, then writes that many zero bytes
to the mixer if it is writable. -/
def UserTrackManager.insertSilence (t : UserTrackManager) (durationMs : Int) :
    UserTrackManager :=
  let samplesNeeded : Nat := ((durationMs * (SAMPLE_RATE : Int)) / 1000).toNat
  let bytesNeeded : Nat := samplesNeeded * CHANNELS * 2
  if t.mixerWritable then { t with mixerBytes := t.mixerBytes + bytesNeeded } else t

/-- `userJoined(joinTime)`: marks the user present, records the join time, and
when `joinTime - recordingStartTime > 0` calls
`_insertSilence(joinTime - recordingStartTime)`. -/
def UserTrackManager.userJoined (t : UserTrackManager) (joinTime : Int) :
    UserTrackManager :=
  let t1 := { t with isPresent := true, joinTime := some joinTime }
  let silenceDuration := joinTime - t1.recordingStartTime
  if silenceDuration > 0 then t1.insertSilence silenceDuration else t1

/-- `userLeft(leaveTime)`: marks the user absent, records the leave time, and
calls `_stopCurrentAudioStream()`.  Nothing else is touched. -/
def UserTrackManager.userLeft (t : UserTrackManager) (leaveTime : Int) :
    UserTrackManager :=
  UserTrackManager.stopCurrentAudioStream
    { t with isPresent := false, leaveTime := some leaveTime }

/-- `startReceivingAudio(opusStream)`: sets `isReceivingAudio = true`, then
calls `_stopCurrentAudioStream()` (which resets `isReceivingAudio` to false),
then attaches the new opus stream and a fresh decoder and pipes the stream into
the decoder. -/
def UserTrackManager.startReceivingAudio (t : UserTrackManager) : UserTrackManager :=
  let t1 := { t with isReceivingAudio := true }
  let t2 := t1.stopCurrentAudioStream
  { t2 with hasOpusStream := true, hasDecoder := true }

/-- `stopReceivingAudio()`: just calls `_stopCurrentAudioStream()`. -/
def UserTrackManager.stopReceivingAudio (t : UserTrackManager) : UserTrackManager :=
  t.stopCurrentAudioStream

/-- `cleanup()`: stops the current audio stream, destroys the silence
generator, ends the mixer stream, and (after a delay) kills the encoder. -/
def UserTrackManager.cleanup (t : UserTrackManager) : UserTrackManager :=
  let t1 := t.stopCurrentAudioStream
  { t1 with silenceGenActive := false, mixerWritable := false, ffmpegRunning := false }

/-- The silence generator's `'data'` handler (`_startSilenceGeneration`): on
each chunk pushed by the generator it writes one 3840-byte silence frame to the
mixer, guarded by `if (!this.isReceivingAudio && this.mixerStream.writable)`.
The event can only fire while the generator is not destroyed. -/
def UserTrackManager.silenceDataEvent (t : UserTrackManager) : UserTrackManager :=
  if t.silenceGenActive && !t.isReceivingAudio && t.mixerWritable then
    { t with mixerBytes := t.mixerBytes + silenceFrameBytes }
  else t

/-- The decoder's `'data'` handler (`startReceivingAudio`): writes each decoded
PCM chunk to the mixer whenever it is writable.  Fires only while a decoder is
attached. -/
def UserTrackManager.decoderDataEvent (t : UserTrackManager) (n : Nat) : UserTrackManager :=
  if t.hasDecoder && t.mixerWritable then { t with mixerBytes := t.mixerBytes + n } else t

/-- Condition under which the next silence-generator chunk is written to the
sink (the guard of the silence `'data'` handler, plus the generator existing). -/
def silenceFeedsSink (t : UserTrackManager) : Bool :=
  t.silenceGenActive && !t.isReceivingAudio && t.mixerWritable

/-- Condition under which decoded live voice is written to the sink: a decoder
is attached (its `'data'` handler writes unconditionally when the mixer is
writable). -/
def voiceFeedsSink (t : UserTrackManager) : Bool :=
  t.hasDecoder && t.mixerWritable

/-! ## Output-file validation -/

inductive FileDisposition where
  | kept
  | deleted
  | missing
  deriving DecidableEq

/-- `UserTrackManager._checkOutputFile()` (continuous-track engine), run when
the FFmpeg process closes: if the file exists its size is logged; a size below
1000 bytes only logs `File too small ..., keeping anyway for sync` — the file
is never unlinked.  A missing file logs a warning. -/
def checkOutputFile (fileExists : Bool) (size : Nat) : FileDisposition :=
  if fileExists then
    -- `if (size < 1000)` only emits a warning; no unlink on any path
    if size < 1000 then FileDisposition.kept else FileDisposition.kept
  else FileDisposition.missing

/-- The legacy per-utterance recorder's FFmpeg `'close'` handler
(`setupRecording` in the first variant of voice_recorder.js): keeps the file
when `stats.size > 1000`, otherwise unlinks it. -/
def legacyCloseCheck (fileExists : Bool) (size : Nat) : FileDisposition :=
  if fileExists then
    if size > 1000 then FileDisposition.kept else FileDisposition.deleted
  else FileDisposition.missing

/-! ## Session Registry (recording_state.json) and startRecording

The registry record written by `saveState(recording)`. -/

structure RegState where
  guildId : Nat
  channelId : Nat
  outputDir : String
  startTime : Int
  pid : Int
  format : String
  bitrate : String
  deriving DecidableEq

/-- The cross-process world visible to the registry operations: the contents of
`recording_state.json` (`none` = file absent) and an oracle telling whether a
given pid is alive (`process.kill(pid, 0)` succeeding).  Filesystem faults on
the state file are modelled separately in `StateFile` below. -/
structure World where
  stateFile : Option RegState
  alive : Int → Bool

/-- `checkExistingRecording()`: loads the state file; if it names a pid,
`process.kill(pid, 0)` probes liveness — success returns the state (a live
conflicting owner), an exception means the process is gone, so the stale state
is cleared via `saveState(null)` and `null` is returned. -/
def checkExistingRecording (w : World) : Option RegState × World :=
  match w.stateFile with
  | none => (none, w)
  | some s =>
    if w.alive s.pid then (some s, w)
    else (none, { w with stateFile := none })

/-- The environment consulted by `startRecording`'s precondition checks, in
source order: client readiness, `checkFFmpeg()`, guild/channel cache lookups,
channel type, `guild.members.me`, `Connect`/`ViewChannel` permissions,
`entersState(connection, Ready, 20000)` success, and the members already in the
channel (id, isBot) used to initialize tracks on success. -/
structure StartEnv where
  isReady : Bool
  ffmpegAvailable : Bool
  guildFound : Bool
  channelFound : Bool
  channelType : Nat
  botMemberFound : Bool
  hasConnect : Bool
  hasViewChannel : Bool
  connectionReady : Bool
  channelMembers : List (Nat × Bool)

structure StartArgs where
  guildId : Nat
  channelId : Nat
  outputDir : String
  format : String
  bitrate : String
  selfPid : Int

/-! ## Session state (rec.userTracks) and its event handlers

`rec.userTracks` is a `Map(userId -> UserTrackManager)`, embedded as a
function; `creations u` counts how many `UserTrackManager` objects were ever
constructed for user `u` during the session (each construction spawns exactly
one FFmpeg encoder). -/

structure SessionRec where
  channelId : Nat
  outputDir : String
  format : String
  bitrate : String
  recordingStartTime : Int
  tracks : Nat → Option UserTrackManager
  creations : Nat → Nat

/-- `rec.userTracks.set(u, tm)` for an existing key. -/
def setTrack (rec : SessionRec) (u : Nat) (tm : UserTrackManager) : SessionRec :=
  { rec with tracks := fun v => if v = u then some tm else rec.tracks v }

/-- Apply `f` to user `u`'s track manager when one exists (the
`const track = rec.userTracks.get(userId); if (track) ...` pattern). -/
def mapTrack (rec : SessionRec) (u : Nat) (f : UserTrackManager → UserTrackManager) :
    SessionRec :=
  match rec.tracks u with
  | some tm => setTrack rec u (f tm)
  | none => rec

/-- `_initializeUserTrack(rec, userId)`: if no track exists for the user,
construct a `UserTrackManager` (spawning its encoder), store it, and call
`userJoined(rec.recordingStartTime)` on it. -/
def initializeUserTrack (rec : SessionRec) (u : Nat) : SessionRec :=
  match rec.tracks u with
  | some _ => rec
  | none =>
    let tm := (UserTrackManager.create u rec.outputDir rec.format rec.bitrate
        rec.recordingStartTime).userJoined rec.recordingStartTime
    { rec with
      tracks := fun v => if v = u then some tm else rec.tracks v
      creations := fun v => if v = u then rec.creations v + 1 else rec.creations v }

/-- The `voiceStateUpdate` handler installed by `_setupVoiceStateTracking`:
ignores updates not involving the recording channel and updates from bots;
on a join from no channel it initializes the track and calls `userJoined(now)`
when the track is not already present; on a leave to no channel it calls
`userLeft(now)` when the track is present. -/
def onVoiceStateUpdate (rec : SessionRec) (u : Nat) (isBot : Bool)
    (oldCh newCh : Option Nat) (now : Int) : SessionRec :=
  if oldCh ≠ some rec.channelId ∧ newCh ≠ some rec.channelId then rec
  else if isBot then rec
  else if oldCh = none ∧ newCh = some rec.channelId then
    let rec1 := initializeUserTrack rec u
    match rec1.tracks u with
    | some tm => if tm.isPresent = false then setTrack rec1 u (tm.userJoined now) else rec1
    | none => rec1
  else if oldCh = some rec.channelId ∧ newCh = none then
    match rec.tracks u with
    | some tm => if tm.isPresent = true then setTrack rec u (tm.userLeft now) else rec
    | none => rec
  else rec

/-- The `receiver.speaking.on('start')` handler (`_setupReceiver`): skips bots,
ensures the track exists, and when `receiver.subscribe` succeeds hands the opus
stream to `startReceivingAudio`. -/
def onSpeakingStart (rec : SessionRec) (u : Nat) (isBot subscribeOk : Bool) :
    SessionRec :=
  if isBot then rec
  else
    let rec1 := initializeUserTrack rec u
    match rec1.tracks u with
    | some tm => if subscribeOk then setTrack rec1 u tm.startReceivingAudio else rec1
    | none => rec1

/-- The `receiver.speaking.on('end')` handler: `stopReceivingAudio` when a
track exists. -/
def onSpeakingEnd (rec : SessionRec) (u : Nat) : SessionRec :=
  mapTrack rec u UserTrackManager.stopReceivingAudio

/-- External events delivered to a running session. -/
inductive SessEvent where
  | voiceState (u : Nat) (isBot : Bool) (oldCh newCh : Option Nat) (now : Int)
  | speakStart (u : Nat) (isBot : Bool) (subscribeOk : Bool)
  | speakEnd (u : Nat)
  | silenceTick (u : Nat)
  | decoderChunk (u : Nat) (n : Nat)

def stepSession (rec : SessionRec) : SessEvent → SessionRec
  | SessEvent.voiceState u b o c now => onVoiceStateUpdate rec u b o c now
  | SessEvent.speakStart u b s => onSpeakingStart rec u b s
  | SessEvent.speakEnd u => onSpeakingEnd rec u
  | SessEvent.silenceTick u => mapTrack rec u UserTrackManager.silenceDataEvent
  | SessEvent.decoderChunk u n => mapTrack rec u (fun t => t.decoderDataEvent n)

def runSession (rec : SessionRec) (evs : List SessEvent) : SessionRec :=
  evs.foldl stepSession rec

/-- The session as set up by a successful `startRecording`: an empty track map
with one track initialized per non-bot member already in the channel
(`channel.members.forEach`). -/
def initSession (channelId : Nat) (outputDir format bitrate : String)
    (startTime : Int) (members : List (Nat × Bool)) : SessionRec :=
  members.foldl (fun rec m => if m.2 then rec else initializeUserTrack rec m.1)
    { channelId := channelId
      outputDir := outputDir
      format := format
      bitrate := bitrate
      recordingStartTime := startTime
      tracks := fun _ => none
      creations := fun _ => 0 }

/-- Result of `startRecording`: the boolean return value, the registry world
afterwards, whether `saveState(rec)` wrote a registry record, and the session
(with its tracks and encoders) when one was created — `none` on every failure
path, which in particular means zero participant tracks and zero track
encoders were created. -/
structure StartResult where
  ok : Bool
  world : World
  registryWritten : Bool
  session : Option SessionRec

def startFail (w : World) : StartResult :=
  { ok := false, world := w, registryWritten := false, session := none }

/-- `startRecording(guildId, channelId, outputDir, opts)` (continuous-track
variant), with every check in source order.  `startTime` is the
`Date.now()` captured after the connection becomes ready. -/
def startRecording (env : StartEnv) (args : StartArgs) (startTime : Int)
    (w : World) : StartResult :=
  if !env.isReady then startFail w
  else if !env.ffmpegAvailable then startFail w
  else
    match checkExistingRecording w with
    | (some _, w1) => startFail w1
    | (none, w1) =>
      if !env.guildFound then startFail w1
      else if !env.channelFound then startFail w1
      else if env.channelType ≠ 2 then startFail w1
      else if !env.botMemberFound then startFail w1
      else if !(env.hasConnect && env.hasViewChannel) then startFail w1
      else if !env.connectionReady then startFail w1
      else
        let record : RegState :=
          { guildId := args.guildId
            channelId := args.channelId
            outputDir := args.outputDir
            startTime := startTime
            pid := args.selfPid
            format := args.format
            bitrate := args.bitrate }
        { ok := true
          world := { w1 with stateFile := some record }
          registryWritten := true
          session := some (initSession args.channelId args.outputDir args.format
            args.bitrate startTime env.channelMembers) }

/-! ## stopRecording and the stop-flag protocol -/

/-- Outcome of one `stopRecording(guildId)` call.  `pollsUsed` counts
iterations of the 16-iteration, 500 ms wait loop; `waitedMs` is the total time
spent in those waits; `finalState` is the registry record as this process last
observed or left it. -/
structure StopResult where
  ok : Bool
  stopFlagWritten : Bool
  pollsUsed : Nat
  waitedMs : Nat
  killedOwner : Bool
  finalState : Option RegState

/-- The loop condition `!s || s.guildId !== guildId` evaluated against the
oracle `ps i` giving `loadState()`'s result at the i-th poll. -/
def pollCleared (guildId : Nat) (ps : Nat → Option RegState) (i : Nat) : Bool :=
  match ps i with
  | none => true
  | some s => s.guildId != guildId

/-- `stopRecording(guildId)`: if this process owns a recording for the guild,
`_stopCurrentRecording()` stops it (waits 5 s for encoders, clears the state
file, returns true).  Otherwise, when the state file names this guild, it
writes the `stop.flag` marker (write errors only warned), then polls
`loadState()` up to 16 times at 500 ms; if the record clears it returns true;
on timeout it calls `process.kill(state.pid)` — on success it clears the state
and returns true, and returns false only if the kill throws. -/
def stopRecording (selfActiveGuild : Option Nat) (guildId : Nat)
    (initState : Option RegState) (ps : Nat → Option RegState)
    (flagWriteOk killSucceeds : Bool) : StopResult :=
  if selfActiveGuild = some guildId then
    { ok := true, stopFlagWritten := false, pollsUsed := 0, waitedMs := 5000,
      killedOwner := false, finalState := none }
  else
    match initState with
    | none =>
      { ok := false, stopFlagWritten := false, pollsUsed := 0, waitedMs := 0,
        killedOwner := false, finalState := initState }
    | some st =>
      if st.guildId != guildId then
        { ok := false, stopFlagWritten := false, pollsUsed := 0, waitedMs := 0,
          killedOwner := false, finalState := initState }
      else
        match (List.range 16).find? (fun i => pollCleared guildId ps i) with
        | some i =>
          { ok := true, stopFlagWritten := flagWriteOk, pollsUsed := i + 1,
            waitedMs := 500 * (i + 1), killedOwner := false, finalState := ps i }
        | none =>
          if killSucceeds then
            { ok := true, stopFlagWritten := flagWriteOk, pollsUsed := 16,
              waitedMs := 500 * 16, killedOwner := true, finalState := none }
          else
            { ok := false, stopFlagWritten := flagWriteOk, pollsUsed := 16,
              waitedMs := 500 * 16, killedOwner := false, finalState := ps 15 }

/-! ## State-file access with filesystem faults (loadState / saveState) -/

namespace StateFile

/-- Filesystem as seen by the state-file helpers, with fault injection:
`fileExists` is `fs.existsSync(STATE_FILE)`; `readFails` makes
`fs.readFileSync` throw; `parsed = none` means the contents are not valid JSON
(`JSON.parse` throws); `writeFails` / `unlinkFails` make `fs.writeFileSync` /
`fs.unlinkSync` throw. -/
structure FSState where
  fileExists : Bool
  readFails : Bool
  parsed : Option RegState
  writeFails : Bool
  unlinkFails : Bool

/-- The body of `loadState()`'s `try` block as a fallible computation:
`if (fs.existsSync(STATE_FILE)) return JSON.parse(fs.readFileSync(...))`,
falling through to `return null` when the file is absent. -/
def loadStateBody (fs : FSState) : Except String (Option RegState) :=
  if fs.fileExists then
    if fs.readFails then Except.error "readFileSync"
    else
      match fs.parsed with
      | none => Except.error "JSON.parse"
      | some s => Except.ok (some s)
  else Except.ok none

/-- The `try { ... } catch (e) { warn }` wrapper: any thrown error is swallowed
and execution continues to the function's default result. -/
def jsTryOr (body : Except String α) (dflt : α) : α :=
  match body with
  | Except.ok v => v
  | Except.error _ => dflt

/-- `loadState()`: total — returns the parsed record, or `null` on a missing,
unreadable, or unparsable file. -/
def loadState (fs : FSState) : Option RegState :=
  jsTryOr (loadStateBody fs) none

/-- Body of `saveState(null)`: `if (fs.existsSync(STATE_FILE))
fs.unlinkSync(STATE_FILE)`.  Returns the new filesystem and whether unlink was
invoked; throws when unlink throws. -/
def saveStateNoneBody (fs : FSState) : Except String (FSState × Bool) :=
  if fs.fileExists then
    if fs.unlinkFails then Except.error "unlinkSync"
    else Except.ok ({ fs with fileExists := false }, true)
  else Except.ok (fs, false)

/-- `saveState(null)` with its catch: on an unlink error the file remains but
the error is swallowed (unlink was still attempted). -/
def saveStateNone (fs : FSState) : FSState × Bool :=
  jsTryOr (saveStateNoneBody fs) (fs, true)

/-- Body of `saveState(recording)` for a non-null recording:
`fs.writeFileSync(STATE_FILE, JSON.stringify(state))`. -/
def saveStateSomeBody (fs : FSState) (st : RegState) : Except String FSState :=
  if fs.writeFails then Except.error "writeFileSync"
  else Except.ok { fs with fileExists := true, parsed := some st }

/-- `saveState(recording)` with its catch: a write error leaves the filesystem
unchanged and is swallowed. -/
def saveStateSome (fs : FSState) (st : RegState) : FSState :=
  jsTryOr (saveStateSomeBody fs st) fs

end StateFile

/-! ## Timed track traces (for the wall-clock synchronization property)

`SilenceGenerator` is a plain `Readable` whose `_read()` pushes one 3840-byte
silence frame; attaching the `'data'` listener puts it in flowing mode, so
frames are delivered whenever the stream machinery invokes `_read` — there is
no timer anywhere in the class, hence no lower or upper bound on how many
`'data'` events occur per unit of wall-clock time.  A timed trace pairs each
track event with the `Date.now()` at which it is delivered; the code admits
any chronological trace. -/

inductive TrackEvt where
  | silenceData
  | decoderData (n : Nat)
  | startAudio
  | stopAudio
  | joined (j : Int)
  | left (l : Int)

def stepTrack (t : UserTrackManager) : TrackEvt → UserTrackManager
  | TrackEvt.silenceData => t.silenceDataEvent
  | TrackEvt.decoderData n => t.decoderDataEvent n
  | TrackEvt.startAudio => t.startReceivingAudio
  | TrackEvt.stopAudio => t.stopReceivingAudio
  | TrackEvt.joined j => t.userJoined j
  | TrackEvt.left l => t.userLeft l

def runTrackEvents (t : UserTrackManager) (evs : List (Int × TrackEvt)) :
    UserTrackManager :=
  evs.foldl (fun s e => stepTrack s e.2) t

def timesSorted : List Int → Bool
  | [] => true
  | [_] => true
  | a :: b :: rest => if a ≤ b then timesSorted (b :: rest) else false

/-- A trace is chronological for a session running from `startT` to `stopT`
when its timestamps are nondecreasing and confined to that window.  Nothing in
the source constrains how many silence `'data'` events may share a timestamp. -/
def chronological (startT stopT : Int) (evs : List (Int × TrackEvt)) : Bool :=
  timesSorted (evs.map Prod.fst)
    && evs.all (fun e => decide (startT ≤ e.1) && decide (e.1 ≤ stopT))

/-! ## Session-level invariant used for the one-track-per-user property -/

/-- All tracks of the session are well formed for the session's fixed output
directory and format: each user's manager (if any) writes to the single
`user_<id>_continuous` file and has spawned exactly one encoder, and
`creations u` (total managers ever constructed for `u`, = encoders ever
spawned for `u`) is 1 when a track exists and 0 otherwise. -/
def SessInvAt (od fmt : String) (rec : SessionRec) : Prop :=
  rec.outputDir = od ∧ rec.format = fmt
  ∧ (∀ u tm, rec.tracks u = some tm →
      tm.filename = trackFilename u od fmt ∧ tm.ffmpegSpawns = 1)
  ∧ (∀ u, rec.creations u = if (rec.tracks u).isSome then 1 else 0)

/-! ## Helper lemmas: track operations never change the output file or spawn
another encoder -/

theorem insertSilence_id (t : UserTrackManager) (d : Int) :
    (t.insertSilence d).filename = t.filename
    ∧ (t.insertSilence d).ffmpegSpawns = t.ffmpegSpawns := by
  unfold UserTrackManager.insertSilence
  dsimp only
  split <;> exact ⟨rfl, rfl⟩

theorem userJoined_id (t : UserTrackManager) (j : Int) :
    (t.userJoined j).filename = t.filename
    ∧ (t.userJoined j).ffmpegSpawns = t.ffmpegSpawns := by
  unfold UserTrackManager.userJoined
  dsimp only
  split
  · exact insertSilence_id _ _
  · exact ⟨rfl, rfl⟩

theorem userLeft_id (t : UserTrackManager) (l : Int) :
    (t.userLeft l).filename = t.filename
    ∧ (t.userLeft l).ffmpegSpawns = t.ffmpegSpawns :=
  ⟨rfl, rfl⟩

theorem startReceivingAudio_id (t : UserTrackManager) :
    t.startReceivingAudio.filename = t.filename
    ∧ t.startReceivingAudio.ffmpegSpawns = t.ffmpegSpawns :=
  ⟨rfl, rfl⟩

theorem stopReceivingAudio_id (t : UserTrackManager) :
    t.stopReceivingAudio.filename = t.filename
    ∧ t.stopReceivingAudio.ffmpegSpawns = t.ffmpegSpawns :=
  ⟨rfl, rfl⟩

theorem silenceDataEvent_id (t : UserTrackManager) :
    t.silenceDataEvent.filename = t.filename
    ∧ t.silenceDataEvent.ffmpegSpawns = t.ffmpegSpawns := by
  unfold UserTrackManager.silenceDataEvent
  split <;> exact ⟨rfl, rfl⟩

theorem decoderDataEvent_id (t : UserTrackManager) (n : Nat) :
    (t.decoderDataEvent n).filename = t.filename
    ∧ (t.decoderDataEvent n).ffmpegSpawns = t.ffmpegSpawns := by
  unfold UserTrackManager.decoderDataEvent
  split <;> exact ⟨rfl, rfl⟩

/-! ## Helper lemmas: the session invariant is preserved -/

theorem sessInvAt_setTrack (od fmt : String) (rec : SessionRec) (u : Nat)
    (tm0 tm : UserTrackManager) (hinv : SessInvAt od fmt rec)
    (h0 : rec.tracks u = some tm0) (hfile : tm.filename = tm0.filename)
    (hspawn : tm.ffmpegSpawns = tm0.ffmpegSpawns) :
    SessInvAt od fmt (setTrack rec u tm) := by
  obtain ⟨hod, hfmt, hid, hcnt⟩ := hinv
  refine ⟨hod, hfmt, ?_, ?_⟩
  · intro v tm' hv
    by_cases hvu : v = u
    · subst hvu
      have htm : tm' = tm := (by simpa [setTrack] using hv : tm = tm').symm
      subst htm
      have h := hid v tm0 h0
      exact ⟨hfile.trans h.1, hspawn.trans h.2⟩
    · have h' : rec.tracks v = some tm' := by simpa [setTrack, hvu] using hv
      exact hid v tm' h'
  · intro v
    by_cases hvu : v = u
    · subst hvu
      simp [setTrack, hcnt v, h0]
    · simp [setTrack, hvu, hcnt v]

theorem sessInvAt_initializeUserTrack (od fmt : String) (rec : SessionRec)
    (u : Nat) (hinv : SessInvAt od fmt rec) :
    SessInvAt od fmt (initializeUserTrack rec u) := by
  obtain ⟨hod, hfmt, hid, hcnt⟩ := hinv
  cases h : rec.tracks u with
  | some tm =>
    simp only [initializeUserTrack, h]
    exact ⟨hod, hfmt, hid, hcnt⟩
  | none =>
    refine ⟨?_, ?_, ?_, ?_⟩ <;> simp only [initializeUserTrack, h]
    · exact hod
    · exact hfmt
    · intro v tm' hv
      by_cases hvu : v = u
      · subst hvu
        have htm : tm' = (UserTrackManager.create v rec.outputDir rec.format
            rec.bitrate rec.recordingStartTime).userJoined rec.recordingStartTime := by
          simpa using hv.symm
        subst htm
        constructor
        · rw [(userJoined_id _ _).1]
          show trackFilename v rec.outputDir rec.format = trackFilename v od fmt
          rw [hod, hfmt]
        · exact (userJoined_id _ _).2
      · have h' : rec.tracks v = some tm' := by simpa [hvu] using hv
        exact hid v tm' h'
    · intro v
      by_cases hvu : v = u
      · subst hvu
        have := hcnt v
        rw [h] at this
        simp at this
        simp [this]
      · simp [hvu, hcnt v]

theorem sessInvAt_mapTrack (od fmt : String) (rec : SessionRec) (u : Nat)
    (f : UserTrackManager → UserTrackManager)
    (hf : ∀ t, (f t).filename = t.filename ∧ (f t).ffmpegSpawns = t.ffmpegSpawns)
    (hinv : SessInvAt od fmt rec) : SessInvAt od fmt (mapTrack rec u f) := by
  cases h : rec.tracks u with
  | some tm =>
    simp only [mapTrack, h]
    exact sessInvAt_setTrack od fmt rec u tm (f tm) hinv h (hf tm).1 (hf tm).2
  | none =>
    simp only [mapTrack, h]
    exact hinv

theorem sessInvAt_step (od fmt : String) (rec : SessionRec) (e : SessEvent)
    (hinv : SessInvAt od fmt rec) : SessInvAt od fmt (stepSession rec e) := by
  cases e with
  | voiceState u b o c now =>
    dsimp only [stepSession, onVoiceStateUpdate]
    split
    · exact hinv
    split
    · exact hinv
    split
    · have h1 := sessInvAt_initializeUserTrack od fmt rec u hinv
      cases h : (initializeUserTrack rec u).tracks u with
      | some tm =>
        simp only [h]
        split
        · exact sessInvAt_setTrack od fmt _ u tm _ h1 h
            (userJoined_id tm now).1 (userJoined_id tm now).2
        · exact h1
      | none =>
        simp only [h]
        exact h1
    split
    · cases h : rec.tracks u with
      | some tm =>
        simp only [h]
        split
        · exact sessInvAt_setTrack od fmt rec u tm _ hinv h
            (userLeft_id tm now).1 (userLeft_id tm now).2
        · exact hinv
      | none =>
        simp only [h]
        exact hinv
    · exact hinv
  | speakStart u b s =>
    dsimp only [stepSession, onSpeakingStart]
    split
    · exact hinv
    · have h1 := sessInvAt_initializeUserTrack od fmt rec u hinv
      cases h : (initializeUserTrack rec u).tracks u with
      | some tm =>
        simp only [h]
        split
        · exact sessInvAt_setTrack od fmt _ u tm _ h1 h
            (startReceivingAudio_id tm).1 (startReceivingAudio_id tm).2
        · exact h1
      | none =>
        simp only [h]
        exact h1
  | speakEnd u =>
    exact sessInvAt_mapTrack od fmt rec u _ stopReceivingAudio_id hinv
  | silenceTick u =>
    exact sessInvAt_mapTrack od fmt rec u _ silenceDataEvent_id hinv
  | decoderChunk u n =>
    exact sessInvAt_mapTrack od fmt rec u _ (fun t => decoderDataEvent_id t n) hinv

theorem foldl_preserves {α : Type} (P : SessionRec → Prop)
    (f : SessionRec → α → SessionRec) (hf : ∀ rec a, P rec → P (f rec a)) :
    ∀ (l : List α) (rec : SessionRec), P rec → P (l.foldl f rec)
  | [], _, h => h
  | a :: l, rec, h => foldl_preserves P f hf l (f rec a) (hf rec a h)

theorem sessInvAt_initSession (channelId : Nat) (od fmt bitrate : String)
    (startTime : Int) (members : List (Nat × Bool)) :
    SessInvAt od fmt (initSession channelId od fmt bitrate startTime members) := by
  unfold initSession
  apply foldl_preserves (SessInvAt od fmt) _ _ members
  · refine ⟨rfl, rfl, ?_, ?_⟩
    · intro v tm' hv
      exact absurd hv (by simp)
    · intro v
      rfl
  · intro rec a h
    dsimp only
    split
    · exact h
    · exact sessInvAt_initializeUserTrack od fmt rec a.1 h

theorem sessInvAt_runSession (od fmt : String) (rec : SessionRec)
    (evs : List SessEvent) (hinv : SessInvAt od fmt rec) :
    SessInvAt od fmt (runSession rec evs) :=
  foldl_preserves (SessInvAt od fmt) stepSession
    (fun r e h => sessInvAt_step od fmt r e h) evs rec hinv

/-! ## Claim theorems -/

/-- Claim C1 (code evaluation at the failing input).  The claim asserts that a
track's sink byte length divided by the PCM bytes-per-second always equals the
elapsed wall-clock time to within one 20 ms frame.  But the silence generator
is a pull-driven `Readable` with no timer, so nothing couples the number of
silence `'data'` events to the clock: the chronological trace below delivers
three silence frames while zero wall-clock time elapses (creation at t=0, stop
at t=0), making the sink hold 11520 bytes = 60 ms of audio in 0 ms of session —
a deviation of 60 ms, exceeding the 20 ms frame period. -/
theorem silenceGenerator_unclocked_eval :
    chronological 0 0
      [((0 : Int), TrackEvt.silenceData), (0, TrackEvt.silenceData),
        (0, TrackEvt.silenceData)] = true
    ∧ (runTrackEvents (UserTrackManager.create 1 "out" "wav" "192k" 0)
        [((0 : Int), TrackEvt.silenceData), (0, TrackEvt.silenceData),
          (0, TrackEvt.silenceData)]).mixerBytes = 11520
    ∧ 11520 * 1000 / bytesPerSecond = 60
    ∧ ((0 : Int) - 0 = 0 ∧ framePeriodMs < 60 - 0) := by
  refine ⟨by decide, rfl, by decide, by decide, by decide⟩

/-- Claim C2 (code evaluation at the failing input).  The claim asserts that at
every instant exactly one source (silence xor live voice) feeds the sink.  But
`startReceivingAudio` sets `isReceivingAudio = true` and then calls
`_stopCurrentAudioStream()`, which resets it to `false`, before attaching the
opus stream and decoder — so immediately after a live voice source attaches,
the silence handler's guard still passes while the decoder also writes:
both sources feed the sink, and one silence frame plus one 3840-byte decoded
chunk deposit 7680 bytes.  The both-sources state is reachable through the
speaking-start handler, as the last conjunct shows. -/
theorem startReceivingAudio_dual_source_eval :
    silenceFeedsSink
        ((UserTrackManager.create 1 "out" "wav" "192k" 0).startReceivingAudio) = true
    ∧ voiceFeedsSink
        ((UserTrackManager.create 1 "out" "wav" "192k" 0).startReceivingAudio) = true
    ∧ (((UserTrackManager.create 1 "out" "wav" "192k"
          0).startReceivingAudio.silenceDataEvent.decoderDataEvent 3840)).mixerBytes
        = 7680
    ∧ ((runSession (initSession 5 "out" "wav" "192k" 0 [(1, false)])
          [SessEvent.speakStart 1 false true]).tracks 1).map
        (fun tm => silenceFeedsSink tm && voiceFeedsSink tm) = some true := by
  refine ⟨rfl, rfl, rfl, rfl⟩

/-- Claim C3 counterexample.  The claim asserts that `userJoined` with a join
time later than the recording start performs no retroactive silence backfill
insertion into the sink.  In fact for a track created at t=0, `userJoined 1000`
calls `_insertSilence(1000)` and writes 48000 samples = 192000 bytes into the
mixer, which previously held 0 bytes. -/
theorem userJoined_no_backfill_counterexample :
    (UserTrackManager.create 1 "out" "wav" "192k" 0).recordingStartTime < 1000
    ∧ (UserTrackManager.create 1 "out" "wav" "192k" 0).mixerBytes = 0
    ∧ ((UserTrackManager.create 1 "out" "wav" "192k" 0).userJoined 1000).mixerBytes
        = 192000 := by
  refine ⟨by decide, rfl, rfl⟩

/-- Claim C3 (amended): when a participant joins after session start
(`joinTime > recordingStartTime`) and the mixer is writable, `userJoined`
inserts a retroactive silence backfill of
`floor((joinTime - recordingStartTime) * 48000 / 1000)` samples (4 bytes each)
into the sink, in addition to the continuous silence emission running since
track creation. -/
theorem userJoined_inserts_backfill (t : UserTrackManager) (j : Int)
    (hj : t.recordingStartTime < j) (hw : t.mixerWritable = true) :
    (t.userJoined j).mixerBytes
      = t.mixerBytes
        + ((j - t.recordingStartTime) * (SAMPLE_RATE : Int) / 1000).toNat
          * CHANNELS * 2 := by
  unfold UserTrackManager.userJoined UserTrackManager.insertSilence
  dsimp only
  have hpos : j - t.recordingStartTime > 0 := by omega
  rw [if_pos hpos, if_pos hw]

theorem userJoined_inserts_backfill_witness :
    ((UserTrackManager.create 1 "out" "wav" "192k" 0).userJoined 1000).mixerBytes
      = (UserTrackManager.create 1 "out" "wav" "192k" 0).mixerBytes
        + ((1000 - (UserTrackManager.create 1 "out" "wav" "192k"
            0).recordingStartTime) * (SAMPLE_RATE : Int) / 1000).toNat
          * CHANNELS * 2 :=
  userJoined_inserts_backfill (UserTrackManager.create 1 "out" "wav" "192k" 0)
    1000 (by decide) rfl

/-- Claim C4 counterexample.  The claim asserts that when a Track Sink closes,
every output file below the 1000-byte threshold is deleted as invalid.  The
continuous-track engine's `_checkOutputFile` never unlinks: a 500-byte file is
below the threshold yet is kept (only a `keeping anyway for sync` warning is
logged). -/
theorem checkOutputFile_keeps_small_counterexample :
    500 < 1000 ∧ checkOutputFile true 500 = FileDisposition.kept := by
  exact ⟨by decide, rfl⟩

/-- Claim C4 (amended): when a continuous Participant Track's encoder exits,
`_checkOutputFile` validates the output file against the 1000-byte threshold
but never deletes it — undersized files are logged as suspect and kept (for
synchronization), files at or above the threshold are kept, and a missing file
is only warned about.  Deletion of near-zero output happens only in the legacy
per-utterance recorder's FFmpeg close handler, which removes files of size
at most 1000 bytes and keeps larger ones. -/
theorem outputFile_validation (size : Nat) :
    checkOutputFile true size = FileDisposition.kept
    ∧ checkOutputFile false size = FileDisposition.missing
    ∧ legacyCloseCheck true size
        = (if 1000 < size then FileDisposition.kept else FileDisposition.deleted) := by
  refine ⟨?_, rfl, ?_⟩
  · simp [checkOutputFile]
  · simp [legacyCloseCheck]

/-- Claim C9: `userLeft` releases any attached live voice source (opus stream
and decoder handles cleared, receiving flag off) and clears the presence flag,
but leaves the sink intact — the encoder process, its spawn count, the mixer
stream, the silence generator, the output file path, and the bytes already
written are all unchanged — and the silence-feed condition afterwards reduces
to the generator being alive and the mixer writable, so silence keeps flowing
until session teardown. -/
theorem userLeft_releases_source_keeps_sink (t : UserTrackManager) (l : Int) :
    (t.userLeft l).isPresent = false
    ∧ (t.userLeft l).leaveTime = some l
    ∧ (t.userLeft l).hasOpusStream = false
    ∧ (t.userLeft l).hasDecoder = false
    ∧ (t.userLeft l).isReceivingAudio = false
    ∧ (t.userLeft l).ffmpegRunning = t.ffmpegRunning
    ∧ (t.userLeft l).ffmpegSpawns = t.ffmpegSpawns
    ∧ (t.userLeft l).mixerWritable = t.mixerWritable
    ∧ (t.userLeft l).mixerBytes = t.mixerBytes
    ∧ (t.userLeft l).silenceGenActive = t.silenceGenActive
    ∧ (t.userLeft l).filename = t.filename
    ∧ silenceFeedsSink (t.userLeft l) = (t.silenceGenActive && t.mixerWritable) := by
  refine ⟨rfl, rfl, rfl, rfl, rfl, rfl, rfl, rfl, rfl, rfl, rfl, ?_⟩
  simp [silenceFeedsSink, UserTrackManager.userLeft,
    UserTrackManager.stopCurrentAudioStream]

/-- Claim C10: registry state-file access is total.  `loadState` returns the
parsed record exactly when the file exists, is readable, and parses; it returns
`null` (no exception) when the file is missing, unreadable, or invalid JSON.
`saveState(null)` attempts unlink exactly when the file exists, leaves the file
in place when unlink throws (error swallowed), and `saveState(record)` swallows
write errors, leaving the filesystem unchanged — every outcome is a plain
value, never a propagated exception. -/
theorem stateFile_access_total (fs : StateFile.FSState) (st : RegState) :
    StateFile.loadState fs
      = (if fs.fileExists && !fs.readFails then fs.parsed else none)
    ∧ (StateFile.saveStateNone fs).2 = fs.fileExists
    ∧ (StateFile.saveStateNone fs).1.fileExists = (fs.fileExists && fs.unlinkFails)
    ∧ StateFile.saveStateSome fs st
      = (if fs.writeFails then fs
         else { fs with fileExists := true, parsed := some st }) := by
  obtain ⟨fe, rf, p, wf, uf⟩ := fs
  refine ⟨?_, ?_, ?_, ?_⟩ <;>
    cases fe <;> cases rf <;> cases wf <;> cases uf <;>
      first
        | rfl
        | (cases p <;> rfl)

/-- Claim C5: whenever the persisted registry names an owning process that is
still alive, `startRecording` returns false; and when it names a dead process
(with the earlier readiness and FFmpeg checks passing, so control reaches the
registry check), the stale record is cleared and the start proceeds exactly as
it would from a world with no registry record at all. -/
theorem startRecording_registry_exclusion (env : StartEnv) (args : StartArgs)
    (startTime : Int) (w : World) (s : RegState) (hs : w.stateFile = some s) :
    (w.alive s.pid = true → (startRecording env args startTime w).ok = false)
    ∧ (w.alive s.pid = false → env.isReady = true → env.ffmpegAvailable = true →
        startRecording env args startTime w
          = startRecording env args startTime { w with stateFile := none }) := by
  constructor
  · intro halive
    have hchk : checkExistingRecording w = (some s, w) := by
      simp [checkExistingRecording, hs, halive]
    unfold startRecording
    rw [hchk]
    split
    · rfl
    · split
      · rfl
      · rfl
  · intro halive hready hff
    have hchk : checkExistingRecording w = (none, { w with stateFile := none }) := by
      simp [checkExistingRecording, hs, halive]
    have hchk2 : checkExistingRecording { w with stateFile := none }
        = (none, { w with stateFile := none }) := rfl
    unfold startRecording
    rw [hchk, hchk2, hready, hff]
    simp

theorem startRecording_registry_exclusion_witness :
    (startRecording ⟨true, true, true, true, 2, true, true, true, true, []⟩
        ⟨1, 2, "out", "wav", "192k", 42⟩ 0
        ⟨some ⟨1, 2, "out", 0, 99, "wav", "192k"⟩, fun _ => true⟩).ok = false
    ∧ startRecording ⟨true, true, true, true, 2, true, true, true, true, []⟩
        ⟨1, 2, "out", "wav", "192k", 42⟩ 0
        ⟨some ⟨1, 2, "out", 0, 99, "wav", "192k"⟩, fun _ => false⟩
      = startRecording ⟨true, true, true, true, 2, true, true, true, true, []⟩
        ⟨1, 2, "out", "wav", "192k", 42⟩ 0 ⟨none, fun _ => false⟩ := by
  constructor
  · exact (startRecording_registry_exclusion _ _ _ _ _ rfl).1 rfl
  · exact (startRecording_registry_exclusion _ _ _ _ _ rfl).2 rfl rfl rfl

/-- Claim C6: if a start precondition fails — FFmpeg unavailable, guild or
channel not found, channel not a voice channel, or Connect/ViewChannel
permission missing — then `startRecording` returns false with no partial
state: no registry record written, no session (hence no participant tracks and
no track encoder processes) created. -/
theorem startRecording_precondition_no_partial_state (env : StartEnv)
    (args : StartArgs) (startTime : Int) (w : World)
    (h : env.ffmpegAvailable = false ∨ env.guildFound = false
       ∨ env.channelFound = false ∨ env.channelType ≠ 2
       ∨ env.hasConnect = false ∨ env.hasViewChannel = false) :
    (startRecording env args startTime w).ok = false
    ∧ (startRecording env args startTime w).registryWritten = false
    ∧ (startRecording env args startTime w).session = none := by
  unfold startRecording
  repeat' split
  all_goals first
    | exact ⟨rfl, rfl, rfl⟩
    | (exfalso; simp_all)

theorem startRecording_precondition_no_partial_state_witness :
    (startRecording ⟨true, false, true, true, 2, true, true, true, true, []⟩
        ⟨1, 2, "out", "wav", "192k", 42⟩ 0 ⟨none, fun _ => false⟩).ok = false
    ∧ (startRecording ⟨true, false, true, true, 2, true, true, true, true, []⟩
        ⟨1, 2, "out", "wav", "192k", 42⟩ 0 ⟨none, fun _ => false⟩).registryWritten
        = false
    ∧ (startRecording ⟨true, false, true, true, 2, true, true, true, true, []⟩
        ⟨1, 2, "out", "wav", "192k", 42⟩ 0 ⟨none, fun _ => false⟩).session = none :=
  startRecording_precondition_no_partial_state _ _ 0 _ (Or.inl rfl)

/-- Claim C7: a stop request against a session owned by another live process is
bounded: after writing the stop marker it polls at most 16 times at 500 ms
(at most 8 s of waiting); it returns false exactly when all 16 polls still saw
the record and the terminate call failed; and on timeout with the terminate
call succeeding it kills the owner, clears the record, and returns true. -/
theorem stopRecording_bounded_escalation (selfActiveGuild : Option Nat)
    (guildId : Nat) (st : RegState) (ps : Nat → Option RegState)
    (flagWriteOk killSucceeds : Bool)
    (hself : selfActiveGuild ≠ some guildId) (hg : st.guildId = guildId) :
    (stopRecording selfActiveGuild guildId (some st) ps flagWriteOk
        killSucceeds).pollsUsed ≤ 16
    ∧ (stopRecording selfActiveGuild guildId (some st) ps flagWriteOk
        killSucceeds).waitedMs ≤ 500 * 16
    ∧ (stopRecording selfActiveGuild guildId (some st) ps flagWriteOk
        killSucceeds).stopFlagWritten = flagWriteOk
    ∧ ((stopRecording selfActiveGuild guildId (some st) ps flagWriteOk
          killSucceeds).ok = false
        ↔ ((∀ i < 16, pollCleared guildId ps i = false) ∧ killSucceeds = false))
    ∧ ((∀ i < 16, pollCleared guildId ps i = false) → killSucceeds = true →
        (stopRecording selfActiveGuild guildId (some st) ps flagWriteOk
            killSucceeds).ok = true
        ∧ (stopRecording selfActiveGuild guildId (some st) ps flagWriteOk
            killSucceeds).killedOwner = true
        ∧ (stopRecording selfActiveGuild guildId (some st) ps flagWriteOk
            killSucceeds).finalState = none) := by
  have hbne : (st.guildId != guildId) = false := by simp [hg]
  have hred : stopRecording selfActiveGuild guildId (some st) ps flagWriteOk
      killSucceeds
      = match (List.range 16).find? (fun i => pollCleared guildId ps i) with
        | some i =>
          { ok := true, stopFlagWritten := flagWriteOk, pollsUsed := i + 1,
            waitedMs := 500 * (i + 1), killedOwner := false, finalState := ps i }
        | none =>
          if killSucceeds then
            { ok := true, stopFlagWritten := flagWriteOk, pollsUsed := 16,
              waitedMs := 500 * 16, killedOwner := true, finalState := none }
          else
            { ok := false, stopFlagWritten := flagWriteOk, pollsUsed := 16,
              waitedMs := 500 * 16, killedOwner := false, finalState := ps 15 } := by
    simp [stopRecording, hself, hbne]
  cases hfind : (List.range 16).find? (fun i => pollCleared guildId ps i) with
  | some i =>
    have hmem : i ∈ List.range 16 := List.mem_of_find?_eq_some hfind
    have hi : i < 16 := List.mem_range.mp hmem
    have hcl : pollCleared guildId ps i = true := List.find?_some hfind
    rw [hred, hfind]
    refine ⟨by dsimp only; omega, by dsimp only; omega, rfl, ?_, ?_⟩
    · dsimp only
      constructor
      · intro hcontra
        exact absurd hcontra (by simp)
      · rintro ⟨hall, _⟩
        rw [hall i hi] at hcl
        exact absurd hcl Bool.false_ne_true
    · intro hall _
      rw [hall i hi] at hcl
      exact absurd hcl Bool.false_ne_true
  | none =>
    have hall : ∀ i < 16, pollCleared guildId ps i = false := by
      intro i hi
      have := List.find?_eq_none.mp hfind i (List.mem_range.mpr hi)
      simpa using this
    rw [hred, hfind]
    cases killSucceeds with
    | true =>
      refine ⟨by norm_num, by norm_num, rfl, ?_, fun _ _ => ⟨rfl, rfl, rfl⟩⟩
      simp
    | false =>
      refine ⟨by norm_num, by norm_num, rfl, ?_, fun _ hk => by cases hk⟩
      simpa using hall

theorem stopRecording_bounded_escalation_witness :
    (stopRecording none 1 (some ⟨1, 2, "out", 0, 99, "wav", "192k"⟩)
        (fun _ => some ⟨1, 2, "out", 0, 99, "wav", "192k"⟩) true true).ok = true
    ∧ (stopRecording none 1 (some ⟨1, 2, "out", 0, 99, "wav", "192k"⟩)
        (fun _ => some ⟨1, 2, "out", 0, 99, "wav", "192k"⟩) true true).killedOwner
        = true
    ∧ (stopRecording none 1 (some ⟨1, 2, "out", 0, 99, "wav", "192k"⟩)
        (fun _ => some ⟨1, 2, "out", 0, 99, "wav", "192k"⟩) true true).finalState
        = none := by
  exact (stopRecording_bounded_escalation none 1 _ _ true true (by decide)
      rfl).2.2.2.2 (fun i _ => rfl) rfl

/-- Claim C8: over any sequence of session events (voice-state joins and
leaves, speaking starts and ends, stream data), each participant keeps at most
one `UserTrackManager` for the whole session — `creations u`, which counts
manager constructions and therefore encoder spawns for user `u`, never exceeds
1 — and whenever a track exists for `u` it writes the single continuous output
file `user_<u>_continuous` with the format's extension, with exactly one
encoder process spawned.  In particular a leave followed by a rejoin reuses
the same manager, file, and encoder. -/
theorem single_track_per_user (channelId : Nat) (outputDir format bitrate : String)
    (startTime : Int) (members : List (Nat × Bool)) (evs : List SessEvent)
    (u : Nat) :
    (runSession (initSession channelId outputDir format bitrate startTime members)
        evs).creations u ≤ 1
    ∧ ∀ tm,
        (runSession (initSession channelId outputDir format bitrate startTime
            members) evs).tracks u = some tm →
        tm.filename = trackFilename u outputDir format ∧ tm.ffmpegSpawns = 1 := by
  have hinv := sessInvAt_runSession outputDir format
    (initSession channelId outputDir format bitrate startTime members) evs
    (sessInvAt_initSession channelId outputDir format bitrate startTime members)
  obtain ⟨_, _, hid, hcnt⟩ := hinv
  constructor
  · rw [hcnt u]
    split <;> omega
  · intro tm htm
    exact hid u tm htm

theorem single_track_per_user_witness :
    (runSession (initSession 5 "out" "wav" "192k" 0 [(1, false)])
        [SessEvent.voiceState 1 false (some 5) none 4000,
          SessEvent.voiceState 1 false none (some 5) 9000]).creations 1 ≤ 1
    ∧ ((((UserTrackManager.create 1 "out" "wav" "192k" 0).userJoined 0).userLeft
          4000).userJoined 9000).filename = trackFilename 1 "out" "wav" := by
  have h := single_track_per_user 5 "out" "wav" "192k" 0 [(1, false)]
    [SessEvent.voiceState 1 false (some 5) none 4000,
      SessEvent.voiceState 1 false none (some 5) 9000] 1
  exact ⟨h.1, (h.2 _ rfl).1⟩

end VoiceRec
